import Mathlib

/-!
Shallow embedding of the sprite-walk animation program in src/main.js.

Modelling conventions:
- JS numbers that only ever hold integers (grid rows and columns, frame
  indices, durations, timers) are modelled as Int or Nat; pixel
  coordinates, which involve the 0.5 half-cell offset, are modelled as Rat.
- Every Math.random() call is modelled as an explicit rational parameter
  assumed to lie in the interval from 0 inclusive to 1 exclusive.
- A JS throw is modelled as Except.error; main.js checks its error
  conditions before mutating anything, so an error carries no new state.
- ImageBitmap frames carry no information the logic reads: only the shape
  of the animSprites matrix is retained, as a List of rows of Unit tokens.
-/

namespace Zorflendex

/-- CELL_LENGTH constant from main.js (line 2). -/
def CELL_LENGTH : ℚ := 22

/-- MOVE_DIRECTIONS table from main.js (line 3): the (deltaRow, deltaCol)
offsets of the 8 compass directions, indexed 0 to 7. -/
def MOVE_DIRECTIONS : List (ℤ × ℤ) :=
  [(1, 0), (1, 1), (0, 1), (-1, 1), (-1, 0), (-1, -1), (0, -1), (1, -1)]

/-- AnimationData record: one entry of the per-character animation manifest
plus the sliced sprite matrix. Bitmaps carry no readable content here; only
the row and column structure of animSprites is kept (rowCount reads its length). -/
structure AnimationData where
  name : String
  frameWidth : ℤ
  frameHeight : ℤ
  durations : List ℤ
  animSprites : List (List Unit)
deriving DecidableEq, Repr, Inhabited

/-- Vector2D record from main.js. -/
structure Vector2D where
  x : ℚ
  y : ℚ
deriving DecidableEq, Repr

/-- toCoordinate from main.js (lines 361 to 366): centre of a grid cell in
continuous (unscaled canvas) coordinates. -/
def toCoordinate (row col : ℤ) : Vector2D :=
  { x := ((col : ℚ) + 1/2) * CELL_LENGTH
    y := ((row : ℚ) + 1/2) * CELL_LENGTH }

/-- AnimatedSprite state (main.js lines 28 to 119). rowIndex is an Int
because setRow only checks an upper bound, so negative values are storable. -/
structure AnimatedSprite where
  animations : List AnimationData
  currentAnimation : AnimationData
  frameIndex : ℕ
  rowIndex : ℤ
  remainingFrameDuration : ℤ
  paused : Bool
deriving DecidableEq, Repr

namespace AnimatedSprite

/-- AnimatedSprite constructor (main.js lines 33 to 42). In JS,
animations[0] of an empty list would be undefined; entities are always
constructed with a nonempty list, and the default record stands in for
undefined. -/
def init (animations : List AnimationData) : AnimatedSprite :=
  { animations := animations
    currentAnimation := animations.headD default
    frameIndex := 0
    rowIndex := 0
    remainingFrameDuration := 0
    paused := true }

/-- rowCount (main.js lines 116 to 118): number of rows of the current
sprite matrix of the current animation. -/
def rowCount (s : AnimatedSprite) : ℕ :=
  s.currentAnimation.animSprites.length

/-- setRow (main.js lines 48 to 53): throws when rowIndex is at least
rowCount, otherwise stores rowIndex. There is no lower-bound check. -/
def setRow (s : AnimatedSprite) (rowIndex : ℤ) : Except String AnimatedSprite :=
  if rowIndex ≥ (s.rowCount : ℤ) then
    .error "Row is out of range for animation."
  else
    .ok { s with rowIndex := rowIndex }

/-- resetPlayback (main.js lines 76 to 79). durations[0] of an empty list
would be undefined in JS; the default 0 stands in (never reached on the
nonempty duration lists used). -/
def resetPlayback (s : AnimatedSprite) : AnimatedSprite :=
  { s with frameIndex := 0
           remainingFrameDuration := s.currentAnimation.durations.getD 0 0 }

/-- play (main.js lines 59 to 70): look up the animation by name (throws if
absent, before any mutation), reset the row to 0 if the stored row is out
of range for the new animation, reset playback and unpause. -/
def play (s : AnimatedSprite) (animationId : String) : Except String AnimatedSprite :=
  match s.animations.find? (fun animation => animation.name == animationId) with
  | none => .error ("Failed to find animation with name " ++ animationId)
  | some anim =>
    let s1 : AnimatedSprite := { s with currentAnimation := anim }
    match (if (s1.rowIndex : ℤ) ≥ (s1.rowCount : ℤ) then s1.setRow 0 else .ok s1) with
    | .error e => .error e
    | .ok s2 => .ok { s2.resetPlayback with paused := false }

/-- stop (main.js lines 72 to 74). -/
def stop (s : AnimatedSprite) : AnimatedSprite :=
  { s with paused := true }

/-- isEndReached (main.js lines 100 to 102). The comparison of frameIndex
with durations.length - 1 is done in Int, as in JS (on an empty duration
list the JS right-hand side is -1). -/
def isEndReached (s : AnimatedSprite) : Bool :=
  decide (s.remainingFrameDuration ≤ 0) &&
    decide ((s.frameIndex : ℤ) = (s.currentAnimation.durations.length : ℤ) - 1)

/-- update (main.js lines 81 to 94): no-op while paused; otherwise
decrement the countdown, hold on the final frame once the end is reached,
and otherwise advance to the next frame when the countdown is exhausted. -/
def update (s : AnimatedSprite) : AnimatedSprite :=
  if s.paused then s
  else
    let s1 : AnimatedSprite := { s with remainingFrameDuration := s.remainingFrameDuration - 1 }
    if s1.isEndReached then s1
    else if s1.remainingFrameDuration ≤ 0 then
      { s1 with frameIndex := s1.frameIndex + 1
                remainingFrameDuration := s1.currentAnimation.durations.getD (s1.frameIndex + 1) 0 }
    else s1

/-- updN iterates update n times (n logic ticks). -/
def updN : ℕ → AnimatedSprite → AnimatedSprite
  | 0, s => s
  | n + 1, s => updN n s.update

end AnimatedSprite

/-- sumDurations: the reduce call used throughout main.js (lines 171, 200,
208) to total a duration list. The JS callback names its accumulator
"duration" and its element "acc" and returns acc + duration, that is
element + accumulator; the foldl below mirrors that argument order. -/
def sumDurations (durations : List ℤ) : ℤ :=
  durations.foldl (fun duration acc => acc + duration) 0

/-- Pokemon entity state (main.js lines 122 to 225). In JS, moveRepeats and
directionIndex are undefined until the first walking branch of nextState;
undefined compares false under the only test applied to moveRepeats
(moveRepeats greater than 0), so the initial record uses 0 for both. -/
structure Pokemon where
  row : ℤ
  col : ℤ
  position : Vector2D
  prevPosition : Option Vector2D
  sprite : AnimatedSprite
  isPickedUp : Bool
  moveRepeats : ℤ
  directionIndex : ℤ
  actionTimer : ℤ
  actionDuration : ℤ
deriving DecidableEq, Repr

namespace Pokemon

/-- updateGridPosition (main.js lines 220 to 224). -/
def updateGridPosition (p : Pokemon) (row col : ℤ) : Pokemon :=
  { p with row := row, col := col, position := toCoordinate row col }

/-- move (main.js lines 204 to 213): play the Walk animation on the row
named by directionIndex, reset the action timer, set the action duration to
the reduce-total of the Walk durations, record the pre-move position as
prevPosition, and advance the grid cell by the direction offset. A negative
directionIndex would read undefined from MOVE_DIRECTIONS in JS and crash on
destructuring; the getD default never arises for the index range 0 to 7. -/
def move (p : Pokemon) : Except String Pokemon :=
  match p.sprite.play "Walk" with
  | .error e => .error e
  | .ok sp =>
    match sp.setRow p.directionIndex with
    | .error e => .error e
    | .ok sp2 =>
      let p1 : Pokemon :=
        { p with sprite := sp2
                 actionTimer := 0
                 actionDuration := sumDurations sp2.currentAnimation.durations
                 prevPosition := some p.position }
      let d := MOVE_DIRECTIONS.getD p.directionIndex.toNat (0, 0)
      .ok (p1.updateGridPosition (p.row + d.1) (p.col + d.2))

/-- chooseDirection: the edge-aware direction if-chain inside the walking
branch of nextState (main.js lines 185 to 195), as a function of the grid
cell, the grid capacity globals, and the Math.random() value dir. -/
def chooseDirection (row col maxRows maxCols : ℤ) (dir : ℚ) : ℤ :=
  if row ≤ 1 then 0
  else if col ≤ 1 then 2
  else if row ≥ maxRows - 1 then 4
  else if col ≥ maxCols - 1 then 6
  else ⌊dir * (MOVE_DIRECTIONS.length : ℚ)⌋

/-- nextState (main.js lines 179 to 202). The three Math.random() calls are
the parameters coin (walk-or-idle), rep (repeat count) and dir (direction);
the globals maxRows and maxCols are passed explicitly. The inline comment
on the repeat-count line in main.js reads: 1 to 3 repeats. -/
def nextState (p : Pokemon) (coin rep dir : ℚ) (maxRows maxCols : ℤ) :
    Except String Pokemon :=
  let p0 : Pokemon := { p with isPickedUp := false, prevPosition := none }
  if coin < 1/2 then
    let p1 : Pokemon := { p0 with moveRepeats := 1 + ⌊rep * 2⌋ }
    let p2 : Pokemon :=
      { p1 with directionIndex := chooseDirection p1.row p1.col maxRows maxCols dir }
    p2.move
  else
    match p0.sprite.play "Idle" with
    | .error e => .error e
    | .ok sp =>
      .ok { p0 with sprite := sp
                    actionTimer := 0
                    actionDuration := sumDurations sp.currentAnimation.durations }

/-- pickUp (main.js lines 165 to 172). -/
def pickUp (p : Pokemon) : Except String Pokemon :=
  let p0 : Pokemon := { p with isPickedUp := true, prevPosition := none }
  match p0.sprite.play "Cringe" with
  | .error e => .error e
  | .ok sp =>
    match sp.setRow 0 with
    | .error e => .error e
    | .ok sp2 =>
      .ok { p0 with sprite := sp2
                    actionTimer := 0
                    actionDuration := sumDurations sp2.currentAnimation.durations }

/-- place (main.js lines 174 to 177): snap to the cell, then nextState. -/
def place (p : Pokemon) (row col : ℤ) (coin rep dir : ℚ) (maxRows maxCols : ℤ) :
    Except String Pokemon :=
  (p.updateGridPosition row col).nextState coin rep dir maxRows maxCols

/-- setPosition models the direct writes to position.x and position.y made
by the pickUp and movePokemon input handlers (main.js lines 405, 406, 417,
418), which bypass the grid model. -/
def setPosition (p : Pokemon) (x y : ℚ) : Pokemon :=
  { p with position := { x := x, y := y } }

/-- update (main.js lines 135 to 151): bump the action timer, tick the
sprite; while picked up only loop the sprite; otherwise run nextState when
the timer has reached the action duration, then run the move-repeat chain
branch if the sprite is at its end and repeats remain. The nested ifs of
the chain branch mirror the short-circuit conjunction in the JS source. -/
def update (p : Pokemon) (coin rep dir : ℚ) (maxRows maxCols : ℤ) :
    Except String Pokemon :=
  let p1 : Pokemon := { p with actionTimer := p.actionTimer + 1, sprite := p.sprite.update }
  if p1.isPickedUp then
    if p1.sprite.isEndReached then
      .ok { p1 with sprite := p1.sprite.resetPlayback }
    else
      .ok p1
  else
    match (if p1.actionTimer ≥ p1.actionDuration
           then p1.nextState coin rep dir maxRows maxCols
           else .ok p1) with
    | .error e => .error e
    | .ok p2 =>
      if p2.sprite.isEndReached then
        if p2.moveRepeats > 0 then
          match p2.move with
          | .error e => .error e
          | .ok p3 => .ok { p3 with moveRepeats := p3.moveRepeats - 1 }
        else .ok p2
      else .ok p2

/-- init is the Pokemon constructor state before its trailing nextState
call (main.js lines 129 to 133). -/
def init (row col : ℤ) (sprite : AnimatedSprite) : Pokemon :=
  { row := row
    col := col
    position := toCoordinate row col
    prevPosition := none
    sprite := sprite
    isPickedUp := false
    moveRepeats := 0
    directionIndex := 0
    actionTimer := 0
    actionDuration := 0 }

/-- create is the full Pokemon constructor: initial fields, then
nextState. -/
def create (row col : ℤ) (sprite : AnimatedSprite) (coin rep dir : ℚ)
    (maxRows maxCols : ℤ) : Except String Pokemon :=
  (init row col sprite).nextState coin rep dir maxRows maxCols

end Pokemon

/-- Reach: the Pokemon states reachable through the public transitions of
the program, starting from the constructor and stepping by the per-frame
update, the pickUp and place input transitions, and the direct position
writes done while dragging. Error outcomes leave no state, so only
successful transitions produce states. The globals maxRows and maxCols may
differ between steps (the resize handler rewrites them). -/
inductive Reach : Pokemon → Prop where
  | init : ∀ (row col : ℤ) (sprite : AnimatedSprite) (coin rep dir : ℚ)
      (maxRows maxCols : ℤ) (p : Pokemon),
      Pokemon.create row col sprite coin rep dir maxRows maxCols = .ok p → Reach p
  | step_update : ∀ (p q : Pokemon) (coin rep dir : ℚ) (maxRows maxCols : ℤ),
      Reach p → p.update coin rep dir maxRows maxCols = .ok q → Reach q
  | step_pickUp : ∀ (p q : Pokemon),
      Reach p → p.pickUp = .ok q → Reach q
  | step_place : ∀ (p q : Pokemon) (row col : ℤ) (coin rep dir : ℚ)
      (maxRows maxCols : ℤ),
      Reach p → p.place row col coin rep dir maxRows maxCols = .ok q → Reach q
  | step_drag : ∀ (p : Pokemon) (x y : ℚ),
      Reach p → Reach (p.setPosition x y)

/-- jsRound models Math.round, which rounds half toward positive
infinity. -/
def jsRound (q : ℚ) : ℤ := ⌊q + 1/2⌋

/-- setDownCell: the grid cell computed by setDown (main.js lines 422 to
430) from a continuous position. -/
def setDownCell (pos : Vector2D) : ℤ × ℤ :=
  (jsRound (pos.y / CELL_LENGTH - 1/2), jsRound (pos.x / CELL_LENGTH - 1/2))

/-!
Concrete fixtures, shaped like the loaded asset data: an animation set
holding Idle, Walk (8 direction rows) and Cringe, with small positive
per-frame durations.
-/

/-- idleAnim fixture: a 1-row Idle animation with durations [2, 2]. -/
def idleAnim : AnimationData :=
  { name := "Idle", frameWidth := 32, frameHeight := 32
    durations := [2, 2], animSprites := [[(), ()]] }

/-- walkAnim fixture: an 8-row Walk animation with durations [1, 1]. -/
def walkAnim : AnimationData :=
  { name := "Walk", frameWidth := 32, frameHeight := 32
    durations := [1, 1]
    animSprites := [[(), ()], [(), ()], [(), ()], [(), ()],
                    [(), ()], [(), ()], [(), ()], [(), ()]] }

/-- cringeAnim fixture: a 1-row Cringe animation with durations [3]. -/
def cringeAnim : AnimationData :=
  { name := "Cringe", frameWidth := 32, frameHeight := 32
    durations := [3], animSprites := [[()]] }

/-- testAnimations fixture: the animation set of the fixtures above. -/
def testAnimations : List AnimationData := [idleAnim, walkAnim, cringeAnim]

/-- okD extracts the success value of an Except, with a fallback used only
on the error branch (which the fixtures never hit). -/
def okD {α : Type} (e : Except String α) (dflt : α) : α :=
  match e with
  | .ok v => v
  | .error _ => dflt

/-- c3Anim: the three-frame animation of the spec scenario with durations
[10, 10, 10]. -/
def c3Anim : AnimationData :=
  { name := "Scenario", frameWidth := 32, frameHeight := 32
    durations := [10, 10, 10], animSprites := [[(), (), ()]] }

/-- c3Played: a fresh sprite over c3Anim on which play has been called. -/
def c3Played : AnimatedSprite :=
  okD ((AnimatedSprite.init [c3Anim]).play "Scenario") (AnimatedSprite.init [c3Anim])

/-- testSprite: a fresh sprite over the fixture animation set. -/
def testSprite : AnimatedSprite := AnimatedSprite.init testAnimations

/-- c1Pre: a mid-walk entity one tick away from both the end of its Walk
animation and the expiry of its action duration (the alignment every real
walk produces): durations of Walk sum to 2 and actionTimer is 1 of 2, with
two chained steps still pending. -/
def c1Pre : Pokemon :=
  { row := 5, col := 5, position := toCoordinate 5 5
    prevPosition := some (toCoordinate 4 5)
    sprite := { animations := testAnimations, currentAnimation := walkAnim
                frameIndex := 1, rowIndex := 0, remainingFrameDuration := 1, paused := false }
    isPickedUp := false, moveRepeats := 2, directionIndex := 0
    actionTimer := 1, actionDuration := 2 }

/-- c1W: like c1Pre, but with an action duration strictly larger than the
tick at hand, so that the sprite end is reached while the action timer is
still below the action duration. -/
def c1W : Pokemon :=
  { c1Pre with actionTimer := 0, actionDuration := 5, directionIndex := 3 }

/-- c1WMoved: the result of the chain move from the mid-tick state of
c1W. -/
def c1WMoved : Pokemon :=
  okD ({ c1W with actionTimer := c1W.actionTimer + 1, sprite := c1W.sprite.update } : Pokemon).move c1W

/-- c1Post: the state update produces from c1Pre under an idle coin: the
timer expiry triggers nextState, which plays Idle; no move happens and the
pending repeat counter is left at 2, undecremented. -/
def c1Post : Pokemon :=
  { row := 5, col := 5, position := toCoordinate 5 5
    prevPosition := none
    sprite := { animations := testAnimations, currentAnimation := idleAnim
                frameIndex := 0, rowIndex := 0, remainingFrameDuration := 2, paused := false }
    isPickedUp := false, moveRepeats := 2, directionIndex := 0
    actionTimer := 0, actionDuration := 4 }

/-- pIdleW: a freshly constructed entity record at cell (5, 5), before its
constructor runs nextState. -/
def pIdleW : Pokemon := Pokemon.init 5 5 testSprite

/-- qC2W: the entity after a walking nextState with repeat-roll 9 tenths
(the largest kind of roll, which the code still turns into 2 repeats). -/
def qC2W : Pokemon := okD (pIdleW.nextState (1/4) (9/10) (1/2) 10 10) pIdleW

/-- p4W: the entity produced by the full constructor with an idle coin. -/
def p4W : Pokemon := okD (Pokemon.create 5 5 testSprite (3/4) 0 0 10 10) pIdleW

/-- q5W: the result of move from pIdleW (direction index 0, down). -/
def q5W : Pokemon := okD pIdleW.move pIdleW

/-- q6W: the entity after a walking nextState in the grid interior with
direction roll 3 eighths. -/
def q6W : Pokemon := okD (pIdleW.nextState (1/4) 0 (3/8) 10 10) pIdleW

/-- c10W: an unpaused sprite that has reached the end of its single-frame
animation. -/
def c10W : AnimatedSprite :=
  { testSprite with currentAnimation := cringeAnim
                    frameIndex := 0, remainingFrameDuration := 0, paused := false }

/-!
Helper lemmas characterising the success outcomes of the stateful
operations.
-/

namespace AnimatedSprite

theorem setRow_ok {s s2 : AnimatedSprite} {r : ℤ} (h : s.setRow r = .ok s2) :
    s2 = { s with rowIndex := r } := by
  unfold setRow at h
  split at h
  · exact absurd h (by simp)
  · simpa using h.symm

theorem update_currentAnimation (s : AnimatedSprite) :
    s.update.currentAnimation = s.currentAnimation := by
  unfold update
  split
  · rfl
  · dsimp only
    split
    · rfl
    · split <;> rfl

theorem update_animations (s : AnimatedSprite) :
    s.update.animations = s.animations := by
  unfold update
  split
  · rfl
  · dsimp only
    split
    · rfl
    · split <;> rfl

theorem play_ok {s s2 : AnimatedSprite} {animationId : String}
    (h : s.play animationId = .ok s2) :
    s2.currentAnimation.name = animationId ∧ s2.animations = s.animations ∧
    s2.paused = false ∧ s2.frameIndex = 0 := by
  unfold play at h
  cases hfind : s.animations.find? (fun animation => animation.name == animationId) with
  | none => rw [hfind] at h; exact absurd h (by simp)
  | some anim =>
    rw [hfind] at h
    have hname : anim.name = animationId := by
      have hb := List.find?_some hfind
      exact eq_of_beq hb
    dsimp only at h
    split at h
    · exact absurd h (by simp)
    · rename_i s2b hs2b
      split at hs2b
      · have := setRow_ok hs2b
        subst this
        simp only [Except.ok.injEq] at h
        subst h
        exact ⟨hname, rfl, rfl, rfl⟩
      · simp only [Except.ok.injEq] at hs2b
        subst hs2b
        simp only [Except.ok.injEq] at h
        subst h
        exact ⟨hname, rfl, rfl, rfl⟩

end AnimatedSprite

namespace Pokemon

theorem move_ok {p q : Pokemon} (h : p.move = .ok q) :
    q.prevPosition = some p.position ∧
    q.sprite.currentAnimation.name = "Walk" ∧
    q.isPickedUp = p.isPickedUp ∧
    q.moveRepeats = p.moveRepeats ∧
    q.directionIndex = p.directionIndex ∧
    q.actionTimer = 0 ∧
    q.actionDuration = sumDurations q.sprite.currentAnimation.durations ∧
    q.row = p.row + (MOVE_DIRECTIONS.getD p.directionIndex.toNat (0, 0)).1 ∧
    q.col = p.col + (MOVE_DIRECTIONS.getD p.directionIndex.toNat (0, 0)).2 := by
  unfold move at h
  split at h
  · exact absurd h (by simp)
  · rename_i sp hp
    split at h
    · exact absurd h (by simp)
    · rename_i sp2 hs
      dsimp only [updateGridPosition] at h
      simp only [Except.ok.injEq] at h
      subst h
      have hrow := AnimatedSprite.setRow_ok hs
      subst hrow
      have hname := (AnimatedSprite.play_ok hp).1
      exact ⟨rfl, hname, rfl, rfl, rfl, rfl, rfl, rfl, rfl⟩

theorem nextState_walking_ok {p q : Pokemon} {coin rep dir : ℚ} {maxRows maxCols : ℤ}
    (hc : coin < 1/2) (h : p.nextState coin rep dir maxRows maxCols = .ok q) :
    q.moveRepeats = 1 + ⌊rep * 2⌋ ∧
    q.directionIndex = chooseDirection p.row p.col maxRows maxCols dir ∧
    q.isPickedUp = false ∧
    q.prevPosition = some p.position ∧
    q.sprite.currentAnimation.name = "Walk" := by
  unfold nextState at h
  rw [if_pos hc] at h
  dsimp only at h
  have hm := move_ok h
  exact ⟨hm.2.2.2.1, hm.2.2.2.2.1, hm.2.2.1, hm.1, hm.2.1⟩

theorem nextState_idle_ok {p q : Pokemon} {coin rep dir : ℚ} {maxRows maxCols : ℤ}
    (hc : ¬ coin < 1/2) (h : p.nextState coin rep dir maxRows maxCols = .ok q) :
    q.prevPosition = none ∧ q.isPickedUp = false ∧
    q.sprite.currentAnimation.name = "Idle" ∧
    q.row = p.row ∧ q.col = p.col ∧ q.moveRepeats = p.moveRepeats := by
  unfold nextState at h
  rw [if_neg hc] at h
  dsimp only at h
  split at h
  · exact absurd h (by simp)
  · rename_i sp hsp
    simp only [Except.ok.injEq] at h
    subst h
    exact ⟨rfl, rfl, (AnimatedSprite.play_ok hsp).1, rfl, rfl, rfl⟩

theorem nextState_inv {p q : Pokemon} {coin rep dir : ℚ} {maxRows maxCols : ℤ}
    (h : p.nextState coin rep dir maxRows maxCols = .ok q) :
    (q.prevPosition.isSome ↔ (q.sprite.currentAnimation.name = "Walk" ∧ q.isPickedUp = false)) := by
  by_cases hc : coin < 1/2
  · obtain ⟨-, -, hpick, hprev, hname⟩ := nextState_walking_ok hc h
    rw [hprev, hname, hpick]
    simp
  · obtain ⟨hprev, hpick, hname, -⟩ := nextState_idle_ok hc h
    rw [hprev, hname, hpick]
    constructor
    · intro hh; exact absurd hh (by simp)
    · rintro ⟨hn, -⟩; exact absurd hn (by decide)

theorem nextState_ok_isPickedUp {p q : Pokemon} {coin rep dir : ℚ} {maxRows maxCols : ℤ}
    (h : p.nextState coin rep dir maxRows maxCols = .ok q) :
    q.isPickedUp = false := by
  by_cases hc : coin < 1/2
  · exact (nextState_walking_ok hc h).2.2.1
  · exact (nextState_idle_ok hc h).2.1

theorem pickUp_ok {p q : Pokemon} (h : p.pickUp = .ok q) :
    q.prevPosition = none ∧ q.isPickedUp = true ∧
    q.sprite.currentAnimation.name = "Cringe" := by
  unfold pickUp at h
  dsimp only at h
  split at h
  · exact absurd h (by simp)
  · rename_i sp hsp
    split at h
    · exact absurd h (by simp)
    · rename_i sp2 hs
      simp only [Except.ok.injEq] at h
      subst h
      have hrow := AnimatedSprite.setRow_ok hs
      subst hrow
      exact ⟨rfl, rfl, (AnimatedSprite.play_ok hsp).1⟩

theorem pickUp_inv {p q : Pokemon} (h : p.pickUp = .ok q) :
    (q.prevPosition.isSome ↔ (q.sprite.currentAnimation.name = "Walk" ∧ q.isPickedUp = false)) := by
  obtain ⟨hprev, hpick, hname⟩ := pickUp_ok h
  rw [hprev, hname, hpick]
  constructor
  · intro hh; exact absurd hh (by simp)
  · rintro ⟨hn, -⟩; exact absurd hn (by decide)

theorem update_inv {p q : Pokemon} {coin rep dir : ℚ} {maxRows maxCols : ℤ}
    (ih : p.prevPosition.isSome ↔ (p.sprite.currentAnimation.name = "Walk" ∧ p.isPickedUp = false))
    (h : p.update coin rep dir maxRows maxCols = .ok q) :
    q.prevPosition.isSome ↔ (q.sprite.currentAnimation.name = "Walk" ∧ q.isPickedUp = false) := by
  unfold update at h
  dsimp only at h
  split at h
  · rename_i hpick
    split at h <;>
    · simp only [Except.ok.injEq] at h
      subst h
      simpa [AnimatedSprite.resetPlayback, AnimatedSprite.update_currentAnimation] using ih
  · rename_i hpick
    split at h
    · exact absurd h (by simp)
    · rename_i p2 heq
      have hinv2 : p2.prevPosition.isSome ↔
          (p2.sprite.currentAnimation.name = "Walk" ∧ p2.isPickedUp = false) := by
        split at heq
        · exact nextState_inv heq
        · simp only [Except.ok.injEq] at heq
          subst heq
          simpa [AnimatedSprite.update_currentAnimation] using ih
      have hpick2 : p2.isPickedUp = false := by
        split at heq
        · exact nextState_ok_isPickedUp heq
        · simp only [Except.ok.injEq] at heq
          subst heq
          simpa using hpick
      split at h
      · split at h
        · split at h
          · exact absurd h (by simp)
          · rename_i p3 hmv
            simp only [Except.ok.injEq] at h
            subst h
            have hm := move_ok hmv
            simp only [hm.1, hm.2.1, hm.2.2.1, hpick2]
            simp
        · simp only [Except.ok.injEq] at h
          subst h
          exact hinv2
      · simp only [Except.ok.injEq] at h
        subst h
        exact hinv2

end Pokemon

theorem sumDurations_eq_sum (l : List ℤ) : sumDurations l = l.sum := by
  have aux : ∀ (l : List ℤ) (a : ℤ),
      l.foldl (fun duration acc => acc + duration) a = a + l.sum := by
    intro l
    induction l with
    | nil => intro a; simp
    | cons x xs ih =>
      intro a
      simp only [List.foldl_cons, List.sum_cons, ih]
      ring
  simpa [sumDurations] using aux l 0

theorem floor_unit_roll_bounds {r : ℚ} {n : ℤ} (h0 : 0 ≤ r) (h1 : r < 1)
    (hn : 0 < n) : 0 ≤ ⌊r * (n : ℚ)⌋ ∧ ⌊r * (n : ℚ)⌋ < n := by
  constructor
  · apply Int.le_floor.mpr
    rw [Int.cast_zero]
    have hnn : (0 : ℚ) ≤ (n : ℚ) := by exact_mod_cast le_of_lt hn
    exact mul_nonneg h0 hnn
  · apply Int.floor_lt.mpr
    have : (0 : ℚ) < (n : ℚ) := by exact_mod_cast hn
    nlinarith

/-!
Claim theorems.
-/

/-- C3 counterexample: the claim asserts that after 35 ticks the sprite
state is unchanged from its state after 31 ticks; in fact update keeps
decrementing the remaining-frame-duration counter while holding the last
frame, so the two states differ (the counter is -5 versus -1). -/
theorem sprite_state_differs_at_tick_35 :
    AnimatedSprite.updN 35 c3Played ≠ AnimatedSprite.updN 31 c3Played := by
  intro h
  have h2 := congrArg AnimatedSprite.remainingFrameDuration h
  have h35 : (AnimatedSprite.updN 35 c3Played).remainingFrameDuration = -5 := by decide
  have h31 : (AnimatedSprite.updN 31 c3Played).remainingFrameDuration = -1 := by decide
  rw [h35, h31] at h2
  exact absurd h2 (by decide)

set_option maxHeartbeats 1000000 in
/-- C3 (amended): for a sprite with durations [10, 10, 10] started by play,
after 31 ticks the frame index is 2 (the last frame) and isEndReached is
true; after 35 ticks the frame index, row index, current animation and
paused flag are unchanged from tick 31 and isEndReached still holds (the
sprite is held on the last frame), but the remaining-frame-duration counter
has decreased by a further 4, one per tick. -/
theorem sprite_holds_last_frame_after_end :
    (AnimatedSprite.updN 31 c3Played).frameIndex = 2 ∧
    (AnimatedSprite.updN 31 c3Played).isEndReached = true ∧
    (AnimatedSprite.updN 35 c3Played).frameIndex = (AnimatedSprite.updN 31 c3Played).frameIndex ∧
    (AnimatedSprite.updN 35 c3Played).rowIndex = (AnimatedSprite.updN 31 c3Played).rowIndex ∧
    (AnimatedSprite.updN 35 c3Played).currentAnimation =
      (AnimatedSprite.updN 31 c3Played).currentAnimation ∧
    (AnimatedSprite.updN 35 c3Played).paused = (AnimatedSprite.updN 31 c3Played).paused ∧
    (AnimatedSprite.updN 35 c3Played).isEndReached = true ∧
    (AnimatedSprite.updN 35 c3Played).remainingFrameDuration =
      (AnimatedSprite.updN 31 c3Played).remainingFrameDuration - 4 := by
  refine ⟨by decide, by decide, by decide, by decide, by decide, by decide, by decide, ?_⟩
  have h35 : (AnimatedSprite.updN 35 c3Played).remainingFrameDuration = -5 := by decide
  have h31 : (AnimatedSprite.updN 31 c3Played).remainingFrameDuration = -1 := by decide
  rw [h35, h31]
  decide

/-- C7: play on an animation name absent from the animation set of the sprite
returns the not-found error. The lookup is the first action of play in the
source, so the error leaves every field of the sprite untouched; in the
embedding the error outcome carries no new state. -/
theorem play_unknown_name_errors (s : AnimatedSprite) (animationId : String)
    (h : ∀ a ∈ s.animations, a.name ≠ animationId) :
    s.play animationId = .error ("Failed to find animation with name " ++ animationId) := by
  unfold AnimatedSprite.play
  have hf : s.animations.find? (fun animation => animation.name == animationId) = none := by
    rw [List.find?_eq_none]
    intro a ha
    simpa using h a ha
  rw [hf]

/-- C7 witness: the fixture sprite has no animation named Fly, and play
of Fly returns the not-found error. -/
theorem play_unknown_name_errors_witness :
    (∀ a ∈ testSprite.animations, a.name ≠ "Fly") ∧
    testSprite.play "Fly" = .error ("Failed to find animation with name " ++ "Fly") :=
  ⟨by decide, play_unknown_name_errors testSprite "Fly" (by decide)⟩

/-- C9: setRow checks only the upper bound: every integer strictly below
the current row count, including every negative integer, is accepted and
stored as the row index, so the row index can become negative through the
public interface. -/
theorem setRow_accepts_below_rowCount (s : AnimatedSprite) (r : ℤ)
    (h : r < (s.rowCount : ℤ)) :
    s.setRow r = .ok { s with rowIndex := r } := by
  unfold AnimatedSprite.setRow
  rw [if_neg (by omega)]

/-- C9 witness: setRow of -5 on the fixture sprite succeeds and stores the
negative row index. -/
theorem setRow_accepts_below_rowCount_witness :
    (-5 : ℤ) < (testSprite.rowCount : ℤ) ∧
    testSprite.setRow (-5) = .ok { testSprite with rowIndex := -5 } :=
  ⟨by decide, setRow_accepts_below_rowCount testSprite (-5) (by decide)⟩

/-- C10: once an unpaused sprite has reached the end of its animation, each
further update decrements the remaining-frame-duration counter by exactly 1
and changes nothing else: frame index, row index, current animation,
animation set and paused flag are all unchanged. -/
theorem update_after_end_decrements_only (s : AnimatedSprite)
    (hpause : s.paused = false) (hend : s.isEndReached = true) :
    s.update = { s with remainingFrameDuration := s.remainingFrameDuration - 1 } := by
  have he : s.remainingFrameDuration ≤ 0 ∧
      (s.frameIndex : ℤ) = (s.currentAnimation.durations.length : ℤ) - 1 := by
    simpa [AnimatedSprite.isEndReached] using hend
  have h1 : ({ s with remainingFrameDuration := s.remainingFrameDuration - 1 } :
      AnimatedSprite).isEndReached = true := by
    simp only [AnimatedSprite.isEndReached, Bool.and_eq_true, decide_eq_true_eq]
    exact ⟨by omega, he.2⟩
  unfold AnimatedSprite.update
  rw [if_neg (by simp [hpause])]
  dsimp only
  rw [if_pos h1]

/-- C10 witness: the fixture end-reached sprite, updated once, only has its
counter decremented from 0 to -1. -/
theorem update_after_end_decrements_only_witness :
    c10W.paused = false ∧ c10W.isEndReached = true ∧
    c10W.update = { c10W with remainingFrameDuration := c10W.remainingFrameDuration - 1 } :=
  ⟨rfl, by decide, update_after_end_decrements_only c10W rfl (by decide)⟩

/-- C8: converting an in-bounds grid cell to the continuous position at its
centre (half-cell offset times the cell length) and back through the
setDown computation (divide by the cell length, subtract the half-cell
offset, round) recovers the cell exactly. -/
theorem grid_roundtrip (row col maxRows maxCols : ℤ)
    (_h1 : 0 ≤ row) (_h2 : row < maxRows) (_h3 : 0 ≤ col) (_h4 : col < maxCols) :
    setDownCell (toCoordinate row col) = (row, col) := by
  unfold setDownCell toCoordinate jsRound CELL_LENGTH
  dsimp only
  have ey : ((row : ℚ) + 1/2) * 22 / 22 - 1/2 + 1/2 = (row : ℚ) + 1/2 := by ring
  have ex : ((col : ℚ) + 1/2) * 22 / 22 - 1/2 + 1/2 = (col : ℚ) + 1/2 := by ring
  rw [ey, ex, Int.floor_int_add, Int.floor_int_add]
  norm_num

/-- C8 witness: the round trip at cell (2, 3) inside a 10 by 10 grid. -/
theorem grid_roundtrip_witness :
    (0 : ℤ) ≤ 2 ∧ (2 : ℤ) < 10 ∧ (0 : ℤ) ≤ 3 ∧ (3 : ℤ) < 10 ∧
    setDownCell (toCoordinate 2 3) = (2, 3) :=
  ⟨by norm_num, by norm_num, by norm_num, by norm_num,
   grid_roundtrip 2 3 10 10 (by norm_num) (by norm_num) (by norm_num) (by norm_num)⟩

/-- beqIdleWalk and friends: String comparisons precomputed for the
symbolic evaluation of the fixtures (the find? calls inside play). -/
theorem beqIdleWalk : ("Idle" == "Walk") = false := by decide

theorem beqWalkWalk : ("Walk" == "Walk") = true := by decide

theorem beqIdleIdle : ("Idle" == "Idle") = true := by decide

theorem beqIdleCringe : ("Idle" == "Cringe") = false := by decide

theorem beqWalkCringe : ("Walk" == "Cringe") = false := by decide

theorem beqCringeCringe : ("Cringe" == "Cringe") = true := by decide

theorem qC2W_eval : pIdleW.nextState (1/4) (9/10) (1/2) 10 10 = .ok qC2W := by
  norm_num [beqIdleWalk, beqWalkWalk, qC2W, okD, pIdleW, Pokemon.nextState,
    Pokemon.chooseDirection, Pokemon.move, Pokemon.init, Pokemon.updateGridPosition,
    testSprite, AnimatedSprite.init, testAnimations, idleAnim, walkAnim, cringeAnim,
    AnimatedSprite.play, AnimatedSprite.setRow, AnimatedSprite.rowCount,
    AnimatedSprite.resetPlayback, toCoordinate, CELL_LENGTH, MOVE_DIRECTIONS,
    sumDurations, List.find?]

theorem q6W_eval : pIdleW.nextState (1/4) 0 (3/8) 10 10 = .ok q6W := by
  norm_num [beqIdleWalk, beqWalkWalk, q6W, okD, pIdleW, Pokemon.nextState,
    Pokemon.chooseDirection, Pokemon.move, Pokemon.init, Pokemon.updateGridPosition,
    testSprite, AnimatedSprite.init, testAnimations, idleAnim, walkAnim, cringeAnim,
    AnimatedSprite.play, AnimatedSprite.setRow, AnimatedSprite.rowCount,
    AnimatedSprite.resetPlayback, toCoordinate, CELL_LENGTH, MOVE_DIRECTIONS,
    sumDurations, List.find?]

theorem p4W_eval : Pokemon.create 5 5 testSprite (3/4) 0 0 10 10 = .ok p4W := by
  norm_num [beqIdleIdle, p4W, okD, pIdleW, Pokemon.create, Pokemon.nextState,
    Pokemon.init, testSprite, AnimatedSprite.init, testAnimations, idleAnim, walkAnim,
    cringeAnim, AnimatedSprite.play, AnimatedSprite.setRow, AnimatedSprite.rowCount,
    AnimatedSprite.resetPlayback, toCoordinate, CELL_LENGTH, sumDurations, List.find?]

/-- C2 (code bug): whenever nextState takes the walking branch, the
move-repeat counter it assigns is 1 plus the floor of twice a random roll
in [0, 1), which is always 1 or 2 and never 3 - although both the claim
and the inline comment on that line of main.js say 1 to 3 repeats. -/
theorem walking_moveRepeats_is_one_or_two
    (p q : Pokemon) (coin rep dir : ℚ) (maxRows maxCols : ℤ)
    (hrep0 : 0 ≤ rep) (hrep1 : rep < 1) (hcoin : coin < 1/2)
    (h : p.nextState coin rep dir maxRows maxCols = .ok q) :
    (q.moveRepeats = 1 ∨ q.moveRepeats = 2) ∧ q.moveRepeats ≠ 3 := by
  have hw := (Pokemon.nextState_walking_ok hcoin h).1
  have hb := floor_unit_roll_bounds hrep0 hrep1 (show (0 : ℤ) < 2 by norm_num)
  rw [show ((2 : ℤ) : ℚ) = (2 : ℚ) from by norm_num] at hb
  rw [hw]
  set k := ⌊rep * (2 : ℚ)⌋ with hk
  obtain ⟨hb0, hb2⟩ := hb
  constructor
  · omega
  · omega
/-- C2 witness: a walking nextState with the largest kind of repeat roll
still assigns only 2 repeats. -/
theorem walking_moveRepeats_is_one_or_two_witness :
    (0 : ℚ) ≤ 9/10 ∧ (9/10 : ℚ) < 1 ∧ (1/4 : ℚ) < 1/2 ∧
    ((qC2W.moveRepeats = 1 ∨ qC2W.moveRepeats = 2) ∧ qC2W.moveRepeats ≠ 3) :=
  ⟨by norm_num, by norm_num, by norm_num,
   walking_moveRepeats_is_one_or_two pIdleW qC2W (1/4) (9/10) (1/2) 10 10
     (by norm_num) (by norm_num) (by norm_num) qC2W_eval⟩

/-- C5: a successful move records the pre-move continuous position as the
previous position, plays the Walk animation, sets the action duration to
the sum of the frame durations of the Walk animation (the swapped-argument
reduce in the source still computes the sum), and advances the grid cell so
that the 8 direction indices yield exactly the 8 expected neighbour
cells in order. -/
theorem move_neighbor_cells (p q : Pokemon) (h : p.move = .ok q) :
    q.prevPosition = some p.position ∧
    q.sprite.currentAnimation.name = "Walk" ∧
    q.actionDuration = sumDurations q.sprite.currentAnimation.durations ∧
    q.actionDuration = q.sprite.currentAnimation.durations.sum ∧
    (p.directionIndex = 0 → q.row = p.row + 1 ∧ q.col = p.col) ∧
    (p.directionIndex = 1 → q.row = p.row + 1 ∧ q.col = p.col + 1) ∧
    (p.directionIndex = 2 → q.row = p.row ∧ q.col = p.col + 1) ∧
    (p.directionIndex = 3 → q.row = p.row - 1 ∧ q.col = p.col + 1) ∧
    (p.directionIndex = 4 → q.row = p.row - 1 ∧ q.col = p.col) ∧
    (p.directionIndex = 5 → q.row = p.row - 1 ∧ q.col = p.col - 1) ∧
    (p.directionIndex = 6 → q.row = p.row ∧ q.col = p.col - 1) ∧
    (p.directionIndex = 7 → q.row = p.row + 1 ∧ q.col = p.col - 1) := by
  obtain ⟨h1, h2, -, -, -, -, h7, h8, h9⟩ := Pokemon.move_ok h
  refine ⟨h1, h2, h7, by rw [h7, sumDurations_eq_sum], ?_, ?_, ?_, ?_, ?_, ?_, ?_, ?_⟩
  · intro hd
    rw [hd] at h8 h9
    rw [show (MOVE_DIRECTIONS.getD (Int.toNat (0 : ℤ)) ((0 : ℤ), (0 : ℤ))).1 = 1 from by decide] at h8
    rw [show (MOVE_DIRECTIONS.getD (Int.toNat (0 : ℤ)) ((0 : ℤ), (0 : ℤ))).2 = 0 from by decide] at h9
    omega
  · intro hd
    rw [hd] at h8 h9
    rw [show (MOVE_DIRECTIONS.getD (Int.toNat (1 : ℤ)) ((0 : ℤ), (0 : ℤ))).1 = 1 from by decide] at h8
    rw [show (MOVE_DIRECTIONS.getD (Int.toNat (1 : ℤ)) ((0 : ℤ), (0 : ℤ))).2 = 1 from by decide] at h9
    omega
  · intro hd
    rw [hd] at h8 h9
    rw [show (MOVE_DIRECTIONS.getD (Int.toNat (2 : ℤ)) ((0 : ℤ), (0 : ℤ))).1 = 0 from by decide] at h8
    rw [show (MOVE_DIRECTIONS.getD (Int.toNat (2 : ℤ)) ((0 : ℤ), (0 : ℤ))).2 = 1 from by decide] at h9
    omega
  · intro hd
    rw [hd] at h8 h9
    rw [show (MOVE_DIRECTIONS.getD (Int.toNat (3 : ℤ)) ((0 : ℤ), (0 : ℤ))).1 = -1 from by decide] at h8
    rw [show (MOVE_DIRECTIONS.getD (Int.toNat (3 : ℤ)) ((0 : ℤ), (0 : ℤ))).2 = 1 from by decide] at h9
    omega
  · intro hd
    rw [hd] at h8 h9
    rw [show (MOVE_DIRECTIONS.getD (Int.toNat (4 : ℤ)) ((0 : ℤ), (0 : ℤ))).1 = -1 from by decide] at h8
    rw [show (MOVE_DIRECTIONS.getD (Int.toNat (4 : ℤ)) ((0 : ℤ), (0 : ℤ))).2 = 0 from by decide] at h9
    omega
  · intro hd
    rw [hd] at h8 h9
    rw [show (MOVE_DIRECTIONS.getD (Int.toNat (5 : ℤ)) ((0 : ℤ), (0 : ℤ))).1 = -1 from by decide] at h8
    rw [show (MOVE_DIRECTIONS.getD (Int.toNat (5 : ℤ)) ((0 : ℤ), (0 : ℤ))).2 = -1 from by decide] at h9
    omega
  · intro hd
    rw [hd] at h8 h9
    rw [show (MOVE_DIRECTIONS.getD (Int.toNat (6 : ℤ)) ((0 : ℤ), (0 : ℤ))).1 = 0 from by decide] at h8
    rw [show (MOVE_DIRECTIONS.getD (Int.toNat (6 : ℤ)) ((0 : ℤ), (0 : ℤ))).2 = -1 from by decide] at h9
    omega
  · intro hd
    rw [hd] at h8 h9
    rw [show (MOVE_DIRECTIONS.getD (Int.toNat (7 : ℤ)) ((0 : ℤ), (0 : ℤ))).1 = 1 from by decide] at h8
    rw [show (MOVE_DIRECTIONS.getD (Int.toNat (7 : ℤ)) ((0 : ℤ), (0 : ℤ))).2 = -1 from by decide] at h9
    omega

/-- C5 witness: move with direction index 0 (down) from cell (5, 5) lands
on (6, 5), records the pre-move position and plays Walk. -/
theorem move_neighbor_cells_witness :
    q5W.prevPosition = some pIdleW.position ∧
    q5W.sprite.currentAnimation.name = "Walk" ∧
    q5W.actionDuration = q5W.sprite.currentAnimation.durations.sum ∧
    (q5W.row = pIdleW.row + 1 ∧ q5W.col = pIdleW.col) := by
  have hm := move_neighbor_cells pIdleW q5W rfl
  exact ⟨hm.1, hm.2.1, hm.2.2.2.1, hm.2.2.2.2.1 rfl⟩

/-- C6: the walking-branch direction choice follows the edge precedence of
the source: row at most 1 forces down (0); otherwise column at most 1
forces right (2); otherwise row at least maxRows - 1 forces up (4);
otherwise column at least maxCols - 1 forces left (6); otherwise the index
is the floor of 8 times a uniform roll, which lies in 0..7 and attains
every one of the 8 values. -/
theorem direction_choice_edge_aware
    (p q : Pokemon) (coin rep dir : ℚ) (maxRows maxCols : ℤ)
    (hcoin : coin < 1/2) (hdir0 : 0 ≤ dir) (hdir1 : dir < 1)
    (h : p.nextState coin rep dir maxRows maxCols = .ok q) :
    (p.row ≤ 1 → q.directionIndex = 0) ∧
    (¬ p.row ≤ 1 → p.col ≤ 1 → q.directionIndex = 2) ∧
    (¬ p.row ≤ 1 → ¬ p.col ≤ 1 → p.row ≥ maxRows - 1 → q.directionIndex = 4) ∧
    (¬ p.row ≤ 1 → ¬ p.col ≤ 1 → ¬ p.row ≥ maxRows - 1 → p.col ≥ maxCols - 1 →
      q.directionIndex = 6) ∧
    (¬ p.row ≤ 1 → ¬ p.col ≤ 1 → ¬ p.row ≥ maxRows - 1 → ¬ p.col ≥ maxCols - 1 →
      q.directionIndex = ⌊dir * 8⌋ ∧ 0 ≤ q.directionIndex ∧ q.directionIndex < 8) ∧
    (¬ p.row ≤ 1 → ¬ p.col ≤ 1 → ¬ p.row ≥ maxRows - 1 → ¬ p.col ≥ maxCols - 1 →
      ∀ k : ℤ, 0 ≤ k → k < 8 → ∃ r : ℚ, 0 ≤ r ∧ r < 1 ∧
        Pokemon.chooseDirection p.row p.col maxRows maxCols r = k) := by
  have hq := (Pokemon.nextState_walking_ok hcoin h).2.1
  have hlen : ((MOVE_DIRECTIONS.length : ℕ) : ℚ) = 8 := by norm_num [MOVE_DIRECTIONS]
  refine ⟨?_, ?_, ?_, ?_, ?_, ?_⟩
  · intro h1
    rw [hq]
    unfold Pokemon.chooseDirection
    rw [if_pos h1]
  · intro h1 h2
    rw [hq]
    unfold Pokemon.chooseDirection
    rw [if_neg h1, if_pos h2]
  · intro h1 h2 h3
    rw [hq]
    unfold Pokemon.chooseDirection
    rw [if_neg h1, if_neg h2, if_pos h3]
  · intro h1 h2 h3 h4
    rw [hq]
    unfold Pokemon.chooseDirection
    rw [if_neg h1, if_neg h2, if_neg h3, if_pos h4]
  · intro h1 h2 h3 h4
    rw [hq]
    unfold Pokemon.chooseDirection
    rw [if_neg h1, if_neg h2, if_neg h3, if_neg h4, hlen]
    exact ⟨rfl, (floor_unit_roll_bounds hdir0 hdir1 (by norm_num : (0 : ℤ) < 8)).1,
           (floor_unit_roll_bounds hdir0 hdir1 (by norm_num : (0 : ℤ) < 8)).2⟩
  · intro h1 h2 h3 h4 k hk0 hk8
    refine ⟨(k : ℚ) / 8, ?_, ?_, ?_⟩
    · apply div_nonneg _ (by norm_num)
      exact_mod_cast hk0
    · rw [div_lt_one (by norm_num)]
      exact_mod_cast hk8
    · unfold Pokemon.chooseDirection
      rw [if_neg h1, if_neg h2, if_neg h3, if_neg h4, hlen,
         div_mul_cancel₀ (k : ℚ) (by norm_num : (8 : ℚ) ≠ 0), Int.floor_intCast]

/-- C6 witness: in the grid interior the direction roll 3 eighths yields
direction index 3. -/
theorem direction_choice_edge_aware_witness :
    ((1/4 : ℚ) < 1/2) ∧ ((0 : ℚ) ≤ 3/8) ∧ ((3/8 : ℚ) < 1) ∧
    (q6W.directionIndex = ⌊(3/8 : ℚ) * 8⌋ ∧ 0 ≤ q6W.directionIndex ∧ q6W.directionIndex < 8) := by
  refine ⟨by norm_num, by norm_num, by norm_num, ?_⟩
  have h := direction_choice_edge_aware pIdleW q6W (1/4) 0 (3/8) 10 10
    (by norm_num) (by norm_num) (by norm_num) q6W_eval
  exact h.2.2.2.2.1 (by decide) (by decide) (by decide) (by decide)

theorem c1Pre_update_eval : c1Pre.update (3/4) 0 0 10 10 = .ok c1Post := by
  norm_num [beqIdleWalk, beqWalkWalk, beqIdleIdle, c1Pre, c1Post, Pokemon.update,
    Pokemon.nextState, Pokemon.chooseDirection, Pokemon.move, Pokemon.updateGridPosition,
    AnimatedSprite.update, AnimatedSprite.isEndReached, AnimatedSprite.play,
    AnimatedSprite.setRow, AnimatedSprite.rowCount, AnimatedSprite.resetPlayback,
    testAnimations, idleAnim, walkAnim, cringeAnim, toCoordinate, CELL_LENGTH,
    MOVE_DIRECTIONS, sumDurations, List.find?]

/-- C1 counterexample: a walking entity with two chained steps pending
reaches the end of its Walk animation exactly when its action timer reaches
the action duration (the alignment every real walk produces, since both
equal the sum of the Walk frame durations). At that tick update calls
nextState first; with an idle coin no move is performed and the repeat
counter stays at 2 undecremented, although the sprite just reached the end
of its animation and the counter was positive - contradicting the claim. -/
theorem moveChain_preempted_at_aligned_tick :
    c1Pre.isPickedUp = false ∧
    (c1Pre.sprite.update).isEndReached = true ∧
    c1Pre.moveRepeats = 2 ∧
    c1Pre.update (3/4) 0 0 10 10 = .ok c1Post ∧
    c1Post.moveRepeats = 2 ∧
    c1Post.row = c1Pre.row ∧
    c1Post.col = c1Pre.col ∧
    c1Post.sprite.currentAnimation.name = "Idle" :=
  ⟨rfl, by decide, rfl, c1Pre_update_eval, rfl, rfl, rfl, rfl⟩

/-- C1 (amended): for an entity that is not picked up, when during an
update tick the sprite reaches the end of its current animation while the
incremented action timer is still strictly below the action duration (so
that nextState is not triggered first) and the move-repeat counter is
positive, the entity calls move again and decrements the repeat counter,
keeping the same direction index (no re-roll between chained steps). When
the timer expires at the same tick - which is what the aligned durations
of a real walk always produce - nextState preempts the chain instead. -/
theorem moveChain_fires_when_timer_below_duration
    (p q : Pokemon) (coin rep dir : ℚ) (maxRows maxCols : ℤ)
    (hpick : p.isPickedUp = false)
    (htimer : p.actionTimer + 1 < p.actionDuration)
    (hend : (p.sprite.update).isEndReached = true)
    (hrep : p.moveRepeats > 0)
    (hmv : ({ p with
              actionTimer := p.actionTimer + 1
              sprite := p.sprite.update } : Pokemon).move = .ok q) :
    p.update coin rep dir maxRows maxCols = .ok { q with moveRepeats := q.moveRepeats - 1 } ∧
    q.directionIndex = p.directionIndex ∧ q.moveRepeats = p.moveRepeats := by
  have hm := Pokemon.move_ok hmv
  refine ⟨?_, hm.2.2.2.2.1, hm.2.2.2.1⟩
  unfold Pokemon.update
  dsimp only
  rw [if_neg (show ¬ (p.isPickedUp = true) by simp [hpick])]
  rw [if_neg (show ¬ (p.actionTimer + 1 ≥ p.actionDuration) by omega)]
  dsimp only
  rw [if_pos (show (p.sprite.update).isEndReached = true from hend)]
  rw [if_pos (show p.moveRepeats > 0 from hrep)]
  rw [hmv]

/-- C1 witness: the chain branch taken concretely: with the action
duration strictly larger than the tick at hand, the end-reached sprite
triggers a move in the same direction and the counter drops from 2 to 1. -/
theorem moveChain_fires_witness :
    c1W.isPickedUp = false ∧
    c1W.actionTimer + 1 < c1W.actionDuration ∧
    (c1W.sprite.update).isEndReached = true ∧
    c1W.moveRepeats > 0 ∧
    (c1W.update 0 0 0 10 10 = .ok { c1WMoved with moveRepeats := c1WMoved.moveRepeats - 1 } ∧
     c1WMoved.directionIndex = c1W.directionIndex ∧
     c1WMoved.moveRepeats = c1W.moveRepeats) :=
  ⟨rfl, by decide, by decide, by decide,
   moveChain_fires_when_timer_below_duration c1W c1WMoved 0 0 0 10 10
     rfl (by decide) (by decide) (by decide) rfl⟩

/-- C4: in every reachable entity state, the previous-position field is set
exactly when the entity is mid-walk (its sprite is playing the Walk
animation and it is not picked up) - the only situation in which render
interpolates the position. In particular it is never set while the Idle
animation plays and never set while the entity is picked up. -/
theorem prevPosition_iff_walking (p : Pokemon) (hp : Reach p) :
    p.prevPosition.isSome ↔
      (p.sprite.currentAnimation.name = "Walk" ∧ p.isPickedUp = false) := by
  induction hp with
  | init row col sprite coin rep dir maxRows maxCols p h =>
    exact Pokemon.nextState_inv h
  | step_update p q coin rep dir maxRows maxCols hr h ih =>
    exact Pokemon.update_inv ih h
  | step_pickUp p q hr h ih =>
    exact Pokemon.pickUp_inv h
  | step_place p q row col coin rep dir maxRows maxCols hr h ih =>
    exact Pokemon.nextState_inv h
  | step_drag p x y hr ih =>
    simpa [Pokemon.setPosition] using ih

/-- C4 witness: the invariant instantiated at a concretely constructed
reachable entity (an idle entity straight out of the constructor). -/
theorem prevPosition_iff_walking_witness :
    p4W.prevPosition.isSome ↔
      (p4W.sprite.currentAnimation.name = "Walk" ∧ p4W.isPickedUp = false) :=
  prevPosition_iff_walking p4W
    (Reach.init 5 5 testSprite (3/4) 0 0 10 10 p4W p4W_eval)

end Zorflendex
